import Mathlib

/-
Shallow embedding of the chat backend (esor111/chat-with-test-case).

Each definition mirrors one function of the TypeScript source; the file
comments name the source location. Strings are modelled as Lean `String`
(JS `.length` counts UTF-16 code units while Lean counts code points; no
claim here depends on astral-plane characters). JS `Date` millisecond
clocks are modelled as naturals, and the fractional-millisecond addend of
`Math.random() * 0.001` as a rational, with `Int.floor` standing for the
truncation the JS `Date` constructor performs on its numeric argument.
-/

deriving instance DecidableEq for Except

namespace ChatSpec

/-! ### Chat controller input validation (src/chat.controller.ts, `validateMessageInput`) -/

/-- Error kinds thrown by `validateMessageInput`, one per `throw` site, in
source order: `NotFoundException` for the user, `BadRequestException` for
UUID format, empty content, over-long content and blank chat id, and
`NotFoundException` for the unknown chat id. -/
inductive ValidationError where
  | userNotFound
  | invalidUuidFormat
  | emptyContent
  | contentTooLong
  | invalidChatId
  | chatNotFound
deriving DecidableEq, Repr

/-- Character class `[0-9a-f]` under the regex `i` flag, i.e. any ASCII hex digit. -/
def isAsciiHexDigit (c : Char) : Bool :=
  c.isDigit || ('a' ≤ c && c ≤ 'f') || ('A' ≤ c && c ≤ 'F')

/-- Consume exactly `n` hex digits from the front of the character list. -/
def hexChunk : Nat → List Char → Option (List Char)
  | 0, rest => some rest
  | _ + 1, [] => none
  | n + 1, c :: rest => if isAsciiHexDigit c then hexChunk n rest else none

/-- Consume one literal dash. -/
def expectDash : List Char → Option (List Char)
  | '-' :: rest => some rest
  | _ => none

/-- Anchored match of `/^[0-9a-f]{8}-[0-9a-f]{4}-[0-9a-f]{4}-[0-9a-f]{4}-[0-9a-f]{12}$/i`,
the RFC-4122 shape used by `isValidUUID`. -/
def rfc4122Shape (s : String) : Bool :=
  (do
    let r ← hexChunk 8 s.data
    let r ← expectDash r
    let r ← hexChunk 4 r
    let r ← expectDash r
    let r ← hexChunk 4 r
    let r ← expectDash r
    let r ← hexChunk 4 r
    let r ← expectDash r
    let r ← hexChunk 12 r
    if r.isEmpty then some () else none).isSome

/-- Anchored match of `/^uuid-[a-zA-Z0-9-]+$/`, the second pattern accepted by
`isValidUUID` ("Accept test UUIDs like uuid-123" in the source). -/
def testUuidShape (s : String) : Bool :=
  match s.data with
  | 'u' :: 'u' :: 'i' :: 'd' :: '-' :: rest =>
      !rest.isEmpty && rest.all (fun c => c.isAlphanum || c = '-')
  | _ => false

/-- ChatController.isValidUUID: either regex may match. -/
def isValidUUID (uuid : String) : Bool :=
  rfc4122Shape uuid || testUuidShape uuid

/-- Whitespace as stripped by `trim`; the checks in the controller only use
`s.trim() === ''`, which holds exactly when every character is whitespace. -/
def isJsWhitespace (c : Char) : Bool :=
  c.isWhitespace

/-- JS `s.trim() === ''` (also true for the empty string). -/
def trimIsEmpty (s : String) : Bool :=
  s.data.all isJsWhitespace

/-! ### ChatController.sanitizeContent

The source strips script tags with
`content.replace(/<script[^>]*>[\s\S]*?<\/script>/gi, '')`.
The embedding scans left to right: at each position it attempts the
leftmost match (literal `<script` case-insensitively, then `[^>]*` up to
the first `>`, then the shortest body ending in the first `</script>`),
removes it and resumes after the match, exactly as a global regex
replacement does. Recursion is by fuel, one unit per character consumed,
so `length + 1` units always suffice (lemma `sanitizeAux_congr`). -/

/-- Case-insensitive comparison of two characters (regex `i` flag). -/
def charEqCI (a b : Char) : Bool :=
  a.toLower = b.toLower

/-- Consume the pattern characters case-insensitively from the input front. -/
def dropCI : List Char → List Char → Option (List Char)
  | [], s => some s
  | _ :: _, [] => none
  | p :: ps, c :: cs => if charEqCI c p then dropCI ps cs else none

/-- The literal characters of the opening tag pattern. -/
def scriptOpen : List Char := ['<', 's', 'c', 'r', 'i', 'p', 't']

/-- The literal characters of the closing tag pattern. -/
def scriptClose : List Char := ['<', '/', 's', 'c', 'r', 'i', 'p', 't', '>']

/-- Regex fragment `[^>]*>`: skip to and consume the first `>`. -/
def skipToGt : List Char → Option (List Char)
  | [] => none
  | c :: cs => if c = '>' then some cs else skipToGt cs

/-- Lazy `[\s\S]*?<\/script>`: consume the shortest body ending in the first
closing tag. -/
def dropToClose : List Char → Option (List Char)
  | [] => none
  | c :: cs =>
      match dropCI scriptClose (c :: cs) with
      | some r => some r
      | none => dropToClose cs

/-- Attempt the full script-tag match at the current position; on success
return the input after the match. -/
def matchScriptAt (s : List Char) : Option (List Char) :=
  (dropCI scriptOpen s).bind (fun r => (skipToGt r).bind dropToClose)

/-- Global replacement driver; the fuel only bounds recursion depth. -/
def sanitizeAux : Nat → List Char → List Char
  | 0, s => s
  | _ + 1, [] => []
  | fuel + 1, c :: cs =>
      match matchScriptAt (c :: cs) with
      | some rest => sanitizeAux fuel rest
      | none => c :: sanitizeAux fuel cs

/-- ChatController.sanitizeContent. -/
def sanitizeContent (content : String) : String :=
  ⟨sanitizeAux (content.data.length + 1) content.data⟩

/-- ChatController.validateMessageInput: the seven numbered steps of the
source in order. Step 1 compares against the literal sentinel the backend
uses for a non-existent user; step 2 merges the JS falsiness test
`!messageData.senderUuid` with the format check; steps 3 and 5 use the
blank-after-trim test; step 7 sanitizes and, on success, the sanitized
content is what `sendMessage` stores. -/
def validateMessageInput (senderUuid content chatId : String) :
    Except ValidationError String :=
  if senderUuid = "non-existent-user-uuid" then
    .error .userNotFound
  else if senderUuid = "" || !isValidUUID senderUuid then
    .error .invalidUuidFormat
  else if content = "" || trimIsEmpty content then
    .error .emptyContent
  else if content.length > 10000 then
    .error .contentTooLong
  else if chatId = "" || trimIsEmpty chatId then
    .error .invalidChatId
  else if chatId = "invalid-chat-id-that-does-not-exist" then
    .error .chatNotFound
  else
    .ok (sanitizeContent content)

/-! ### Conversation creation validation (test/utils/conversation.util.ts, `validateConversationCreation`) -/

/-- Conversation kinds accepted by `validateConversationCreation`. -/
inductive ConvType where
  | direct
  | group
  | business
deriving DecidableEq, Repr

/-- Shape of the `{ valid: boolean; error?: string }` result. -/
structure ValidationResult where
  valid : Bool
  error : Option String
deriving DecidableEq, Repr

/-- validateConversationCreation: the source is a sequence of early-return
`if` blocks, hence an if-then-else chain; the JS duplicate test
`new Set(participants).size !== participants.length` is the dedup-length
test. -/
def validateConversationCreation (t : ConvType) (participants : List String) :
    ValidationResult :=
  if t = .direct ∧ participants.length ≠ 2 then
    ⟨false, some "Direct conversations must have exactly 2 participants"⟩
  else if t = .group ∧ participants.length < 2 then
    ⟨false, some "Group conversations must have at least 2 participants"⟩
  else if t = .group ∧ participants.length > 8 then
    ⟨false, some "Group conversations cannot have more than 8 participants"⟩
  else if t = .business ∧ participants.length < 2 then
    ⟨false, some "Business conversations must have at least 2 participants"⟩
  else if participants.dedup.length ≠ participants.length then
    ⟨false, some "Conversation cannot have duplicate participants"⟩
  else
    ⟨true, none⟩

/-! ### Business agent assignment (test/mocks/businesses.mock.ts) -/

/-- Agent availability states. -/
inductive AgentStatus where
  | available
  | busy
  | offline
deriving DecidableEq, Repr

/-- The `TestAgent` record of the mock. -/
structure TestAgent where
  uuid : String
  businessId : String
  name : String
  status : AgentStatus
  maxConcurrentChats : Nat
  currentChatCount : Nat
  skills : List String
deriving DecidableEq, Repr

/-- The filter shared by both selection policies: same business, available,
and below capacity. -/
def eligibleAgents (agents : List TestAgent) (businessId : String) : List TestAgent :=
  agents.filter fun a =>
    decide (a.businessId = businessId ∧ a.status = .available ∧
      a.currentChatCount < a.maxConcurrentChats)

/-- getNextAvailableAgent ("round-robin"): JS `reduce` without seed over the
eligible list, keeping the agent with the lower `currentChatCount`
(ties keep the earlier agent). Returns `none` when no agent is eligible. -/
def getNextAvailableAgent (agents : List TestAgent) (businessId : String) :
    Option TestAgent :=
  match eligibleAgents agents businessId with
  | [] => none
  | h :: t =>
      some (t.foldl
        (fun prev current =>
          if prev.currentChatCount ≤ current.currentChatCount then prev else current)
        h)

/-- getLeastBusyAgent: as above but comparing the workload fractions
`currentChatCount / maxConcurrentChats`; the float division of the source
is compared through cross-multiplication, which agrees with it on every
eligible agent (capacity is positive there). -/
def getLeastBusyAgent (agents : List TestAgent) (businessId : String) :
    Option TestAgent :=
  match eligibleAgents agents businessId with
  | [] => none
  | h :: t =>
      some (t.foldl
        (fun prev current =>
          if prev.currentChatCount * current.maxConcurrentChats ≤
              current.currentChatCount * prev.maxConcurrentChats then prev
          else current)
        h)

/-- TEST_AGENTS.AGENT_1 (John Support, 2 of 5). -/
def agent1 : TestAgent :=
  ⟨"agent-uuid-1", "business-uuid-1", "John Support", .available, 5, 2,
    ["general", "billing"]⟩

/-- TEST_AGENTS.AGENT_2 (Sarah Helper, busy, 3 of 3). -/
def agent2 : TestAgent :=
  ⟨"agent-uuid-2", "business-uuid-1", "Sarah Helper", .busy, 3, 3,
    ["technical", "advanced"]⟩

/-- TEST_AGENTS.AGENT_3 (Mike Assistant, offline, 0 of 4). -/
def agent3 : TestAgent :=
  ⟨"agent-uuid-3", "business-uuid-1", "Mike Assistant", .offline, 4, 0,
    ["general"]⟩

/-- TEST_BUSINESS_SCENARIOS.OPTIMAL_LOAD_SCENARIO: the three business-uuid-1
agents all available, with loads 2 of 5 (40%), 1 of 3 (33%) and 3 of 4
(75%); this is the fixture of spec scenario 5 (agent A = agent-uuid-1 at
2/5, agent B = agent-uuid-2 at 1/3). -/
def optimalLoadAgents : List TestAgent :=
  [{ agent1 with currentChatCount := 2, status := .available },
   { agent2 with currentChatCount := 1, status := .available },
   { agent3 with currentChatCount := 3, status := .available }]

/-! ### Chat service (src/chat.service.ts) -/

/-- A row of the `messages` table (`message.entity`); `timestamp` is the
stored `Date` as an integral millisecond count (the `Date` constructor
truncates its numeric argument to whole milliseconds). -/
structure DbMessage where
  id : String
  chatId : String
  senderUuid : String
  content : String
  timestamp : Int
deriving DecidableEq, Repr

/-- A row of the `message_reads` table (`message-read.entity`). -/
structure DbRead where
  messageId : String
  readerUuid : String
  readAt : Int
deriving DecidableEq, Repr

/-- The `ChatMessage` interface returned by `getChatHistory`; `readBy` is the
optional reader-to-time map, rendered as a pair list. -/
structure ChatMessage where
  id : String
  senderUuid : String
  content : String
  timestamp : Int
  readBy : Option (List (String × Int))
deriving DecidableEq, Repr

/-- The hardcoded two-message fallback returned by `getChatHistory` when the
database has no rows for the chat; both messages carry `new Date()`, the
query-time clock. -/
def fallbackHistory (now : Int) : List ChatMessage :=
  [⟨"msg-1", "uuid-456", "Hello there!", now, none⟩,
   ⟨"msg-2", "uuid-123", "Hi back!", now, none⟩]

/-- Ordering used by the repository query `order: { timestamp: ASC }`. -/
def byTimestamp (a b : DbMessage) : Bool :=
  a.timestamp ≤ b.timestamp

/-- ChatService.getChatHistory over explicit table states: the designated
`empty-chat-test` id short-circuits to `[]`; otherwise the stored rows for
the chat are returned ascending by timestamp and joined with their read
receipts, falling back to `fallbackHistory` when there are none. The
database sort is modelled as a stable merge sort on the stored order. -/
def getChatHistory (msgs : List DbMessage) (reads : List DbRead) (now : Int)
    (chatId : String) : List ChatMessage :=
  if chatId = "empty-chat-test" then []
  else
    let dbMessages := (msgs.filter (fun m => m.chatId == chatId)).mergeSort byTimestamp
    if dbMessages.isEmpty then fallbackHistory now
    else
      dbMessages.map fun m =>
        ⟨m.id, m.senderUuid, m.content, m.timestamp,
          some ((reads.filter (fun r => r.messageId == m.id)).map
            fun r => (r.readerUuid, r.readAt))⟩

/-- The value stored by `new Date(Date.now() + Math.random() * 0.001)`:
`nowMs` is the integer millisecond clock and `rand` the `Math.random()`
draw in `[0, 1)`; the `Date` constructor truncates the sum to whole
milliseconds. -/
def messageTimestamp (nowMs : Nat) (rand : ℚ) : Int :=
  ⌊(nowMs : ℚ) + rand * (1 / 1000)⌋

/-- The `{ status, messageId }` acknowledgement of `sendMessage`. -/
structure SendResult where
  status : String
  messageId : String
deriving DecidableEq, Repr

/-- ChatService.sendMessage: appends the row built from the request to the
messages table and acknowledges; no other table is touched (the realtime
emit has no effect on stored state). -/
def sendMessage (msgs : List DbMessage) (chatId senderUuid content newId : String)
    (nowMs : Nat) (rand : ℚ) : List DbMessage × SendResult :=
  (msgs ++ [⟨newId, chatId, senderUuid, content, messageTimestamp nowMs rand⟩],
   ⟨"sent", newId⟩)

/-- ChatService.markAsRead: insert a read receipt unless one already exists
for the (messageId, readerUuid) pair; always acknowledges with "read". -/
def markAsRead (readStore : List DbRead) (messageId readerUuid : String)
    (now : Int) : List DbRead × String :=
  if readStore.any (fun r => r.messageId == messageId && r.readerUuid == readerUuid) then
    (readStore, "read")
  else
    (readStore ++ [⟨messageId, readerUuid, now⟩], "read")

/-- The `ChatPreview` rows returned by `getChatList`. -/
structure ChatPreview where
  id : String
  participantUuid : String
  participantName : String
  lastMessage : String
  timestamp : Int
  unreadCount : Nat
deriving DecidableEq, Repr

/-- ChatService.getChatList: the hardcoded single-chat list (the userId
argument is ignored by the source), enriched with the profile name or the
`Unknown User` fallback; `unreadCount` is the constant 1 of the fixture
and no message-store state is consulted. -/
def getChatList (_userId : String) (profiles : List (String × String)) (now : Int) :
    List ChatPreview :=
  [⟨"test-chat-1", "uuid-123",
    (((profiles.find? (fun p => p.1 == "uuid-123")).map Prod.snd).getD "Unknown User"),
    "Hello there!", now, 1⟩]

/-! ### Mock conversation service (test/conversation-management.e2e-spec.ts)

The e2e suite's MockConversationService holds conversations in a Map; the
fields its archive and access-control paths read or write are the
participant list and the archive marker. -/

/-- A stored conversation as the mock service sees it. -/
structure MockConversation where
  participants : List String
  archived : Bool
  archivedAt : Option Int
  archivedBy : Option String
deriving DecidableEq, Repr

/-- The conversations Map, as an association list in insertion order. -/
abbrev ConvStore := List (String × MockConversation)

/-- Map.get. -/
def lookupConv (s : ConvStore) (cid : String) : Option MockConversation :=
  (s.find? (fun kv => kv.1 == cid)).map Prod.snd

/-- Map.set: replace the stored entry (keys are unique in a Map, so
replacing the first occurrence is replacement) or append a new one. -/
def setConv : ConvStore → String → MockConversation → ConvStore
  | [], cid, c => [(cid, c)]
  | kv :: tl, cid, c =>
      if kv.1 == cid then (cid, c) :: tl else kv :: setConv tl cid c

/-- MockConversationService.validateUserAccess: true iff the conversation
exists and lists the user. -/
def validateUserAccess (s : ConvStore) (cid uid : String) : Bool :=
  match lookupConv s cid with
  | none => false
  | some c => c.participants.contains uid

/-- MockConversationService.archiveConversation: requires access, then marks
the conversation archived. -/
def archiveConversation (s : ConvStore) (cid uid : String) (now : Int) :
    Except String (ConvStore × MockConversation) :=
  if !validateUserAccess s cid uid then
    .error "Access denied: User cannot archive conversation they do not participate in"
  else
    match lookupConv s cid with
    | none => .error "Conversation not found"
    | some c =>
        let archivedConv : MockConversation :=
          { c with archived := true, archivedAt := some now, archivedBy := some uid }
        .ok (setConv s cid archivedConv, archivedConv)

/-- The message value produced by the mock send. -/
structure MockMessage where
  id : String
  conversationId : String
  senderUuid : String
  content : String
  timestamp : Int
  status : String
deriving DecidableEq, Repr

/-- MockConversationService.sendMessageWithAccessControl: access check first
(false when the conversation is missing), then the archived-conversation
guard, then the mock send. -/
def sendMessageWithAccessControl (s : ConvStore) (cid senderUuid content : String)
    (now : Int) : Except String MockMessage :=
  match lookupConv s cid with
  | none =>
      .error "Access denied: User cannot send message to conversation they do not participate in"
  | some c =>
      if !c.participants.contains senderUuid then
        .error "Access denied: User cannot send message to conversation they do not participate in"
      else if c.archived then
        .error "Cannot send message to archived conversation"
      else
        .ok ⟨"msg-" ++ toString now, cid, senderUuid, content, now, "sent"⟩

/-- MockConversationService.getConversationWithAccessControl: access check,
then the stored conversation (the read path the archival property keeps
open for participants). -/
def getConversationWithAccessControl (s : ConvStore) (cid uid : String) :
    Except String (Option MockConversation) :=
  if !validateUserAccess s cid uid then
    .error "Access denied: User is not a participant in this conversation"
  else
    .ok (lookupConv s cid)

/-- A two-person direct conversation fixture (alice and bob), not archived. -/
def conversationAliceBob : MockConversation :=
  ⟨["uuid-alice", "uuid-bob"], false, none, none⟩

/-- The same conversation after alice archives it at time 500. -/
def conversationAliceBobArchived : MockConversation :=
  ⟨["uuid-alice", "uuid-bob"], true, some 500, some "uuid-alice"⟩

/-! ### Helper lemmas -/

/-- The JS duplicate test: the number of distinct entries equals the list
length exactly when the list has no duplicates. -/
lemma dedup_length_eq_iff_nodup (ps : List String) :
    ps.dedup.length = ps.length ↔ ps.Nodup := by
  constructor
  · intro h
    have hself : ps.dedup = ps := (List.dedup_sublist ps).eq_of_length h
    simpa [hself] using ps.nodup_dedup
  · intro h
    rw [h.dedup]

/-- Transitivity of the history ordering predicate. -/
lemma byTimestamp_trans (a b c : DbMessage) :
    byTimestamp a b → byTimestamp b c → byTimestamp a c := by
  simp only [byTimestamp, decide_eq_true_eq]
  omega

/-- Totality of the history ordering predicate. -/
lemma byTimestamp_total (a b : DbMessage) :
    byTimestamp a b || byTimestamp b a := by
  simp only [byTimestamp, Bool.or_eq_true, decide_eq_true_eq]
  omega

/-- Replacing the entry for a key and looking that key up yields the new
value (the key need not be present: Map.set appends in that case). -/
lemma lookupConv_setConv_self (s : ConvStore) (cid : String) (v : MockConversation) :
    lookupConv (setConv s cid v) cid = some v := by
  induction s with
  | nil => simp [setConv, lookupConv]
  | cons kv tl ih =>
      by_cases hk : kv.1 == cid
      · simp [setConv, lookupConv, hk]
      · simpa [setConv, lookupConv, hk] using ih

/-- Consuming a pattern case-insensitively removes exactly the pattern
length from the input. -/
lemma dropCI_length : ∀ {p s r : List Char}, dropCI p s = some r →
    r.length + p.length = s.length
  | [], s, r, h => by
      simp [dropCI] at h
      simp [h]
  | _ :: _, [], _, h => by simp [dropCI] at h
  | p :: ps, c :: cs, r, h => by
      by_cases hc : charEqCI c p
      · rw [dropCI, if_pos hc] at h
        have := dropCI_length h
        simp [List.length_cons]
        omega
      · rw [dropCI, if_neg hc] at h
        cases h

/-- Skipping to the first closing angle bracket consumes at least one
character. -/
lemma skipToGt_length : ∀ {s r : List Char}, skipToGt s = some r →
    r.length < s.length
  | [], _, h => by simp [skipToGt] at h
  | c :: cs, r, h => by
      by_cases hc : c = '>'
      · rw [skipToGt, if_pos hc] at h
        injection h with h
        simp [← h]
      · rw [skipToGt, if_neg hc] at h
        have := skipToGt_length h
        simp
        omega

/-- Consuming up to and including the first closing tag consumes at least
one character. -/
lemma dropToClose_length : ∀ {s r : List Char}, dropToClose s = some r →
    r.length < s.length
  | [], _, h => by simp [dropToClose] at h
  | c :: cs, r, h => by
      rw [dropToClose] at h
      cases hm : dropCI scriptClose (c :: cs) with
      | some q =>
          rw [hm] at h
          injection h with h
          subst h
          have := dropCI_length hm
          simp [scriptClose] at this
          simp
          omega
      | none =>
          rw [hm] at h
          have := dropToClose_length h
          simp
          omega

/-- A successful script-tag match consumes at least one character, so the
fuel of `sanitizeAux` decreases slower than the input. -/
lemma matchScriptAt_length {s r : List Char} (h : matchScriptAt s = some r) :
    r.length < s.length := by
  unfold matchScriptAt at h
  cases h1 : dropCI scriptOpen s with
  | none => rw [h1] at h; cases h
  | some q1 =>
      rw [h1] at h
      simp only [Option.some_bind] at h
      cases h2 : skipToGt q1 with
      | none => rw [h2] at h; cases h
      | some q2 =>
          rw [h2] at h
          simp only [Option.some_bind] at h
          have l1 := dropCI_length h1
          have l2 := skipToGt_length h2
          have l3 := dropToClose_length h
          simp [scriptOpen] at l1
          omega

/-- The fuel of `sanitizeAux` is irrelevant as soon as it exceeds the input
length, so `length + 1` in `sanitizeContent` is always enough. -/
lemma sanitizeAux_congr : ∀ (f : Nat) {g : Nat} {s : List Char},
    s.length < f → s.length < g → sanitizeAux f s = sanitizeAux g s
  | 0, _, _, hf, _ => by omega
  | _ + 1, 0, _, _, hg => by omega
  | f + 1, g + 1, [], _, _ => by simp [sanitizeAux]
  | f + 1, g + 1, c :: cs, hf, hg => by
      rw [sanitizeAux, sanitizeAux]
      cases hm : matchScriptAt (c :: cs) with
      | some rest =>
          have hlt := matchScriptAt_length hm
          have h1 : rest.length < f := by simp at hf hlt; omega
          have h2 : rest.length < g := by simp at hg hlt; omega
          exact sanitizeAux_congr f h1 h2
      | none =>
          have h1 : cs.length < f := by simp at hf; omega
          have h2 : cs.length < g := by simp at hg; omega
          rw [sanitizeAux_congr f h1 h2]

/-- Creation validation for direct conversations in if-chain normal form
(the group and business guards cannot fire). -/
lemma validate_direct_eq (ps : List String) :
    validateConversationCreation .direct ps =
      if ps.length ≠ 2 then
        ⟨false, some "Direct conversations must have exactly 2 participants"⟩
      else if ps.dedup.length ≠ ps.length then
        ⟨false, some "Conversation cannot have duplicate participants"⟩
      else ⟨true, none⟩ := by
  simp [validateConversationCreation]

/-- Creation validation for group conversations in if-chain normal form
(the direct and business guards cannot fire). -/
lemma validate_group_eq (ps : List String) :
    validateConversationCreation .group ps =
      if ps.length < 2 then
        ⟨false, some "Group conversations must have at least 2 participants"⟩
      else if ps.length > 8 then
        ⟨false, some "Group conversations cannot have more than 8 participants"⟩
      else if ps.dedup.length ≠ ps.length then
        ⟨false, some "Conversation cannot have duplicate participants"⟩
      else ⟨true, none⟩ := by
  simp [validateConversationCreation]

/-- An empty string has no characters, so it is blank after trim. -/
lemma trimIsEmpty_empty : trimIsEmpty "" = true := by decide

/-- The empty string matches neither UUID pattern. -/
lemma isValidUUID_empty : isValidUUID "" = false := by decide

/-! ### Claim theorems -/

/-- Claim C1: for every send-message request, validation is applied in
exactly the source's sequence — (1) sender existence (the sentinel
non-existent user), (2) sender UUID format, (3) content non-empty,
(4) content length, (5) chat id validity then existence, (6) sanitize on
success; in particular a request whose sender does not exist reports
`userNotFound` whatever its content or chat id, so even when the content
is empty, over-long, or the sender UUID malformed. -/
theorem c1_validation_order (senderUuid content chatId : String) :
    (senderUuid = "non-existent-user-uuid" →
      validateMessageInput senderUuid content chatId = .error .userNotFound)
    ∧ (senderUuid ≠ "non-existent-user-uuid" → isValidUUID senderUuid = false →
      validateMessageInput senderUuid content chatId = .error .invalidUuidFormat)
    ∧ (senderUuid ≠ "non-existent-user-uuid" → isValidUUID senderUuid = true →
      trimIsEmpty content = true →
      validateMessageInput senderUuid content chatId = .error .emptyContent)
    ∧ (senderUuid ≠ "non-existent-user-uuid" → isValidUUID senderUuid = true →
      trimIsEmpty content = false → content.length > 10000 →
      validateMessageInput senderUuid content chatId = .error .contentTooLong)
    ∧ (senderUuid ≠ "non-existent-user-uuid" → isValidUUID senderUuid = true →
      trimIsEmpty content = false → content.length ≤ 10000 →
      trimIsEmpty chatId = true →
      validateMessageInput senderUuid content chatId = .error .invalidChatId)
    ∧ (senderUuid ≠ "non-existent-user-uuid" → isValidUUID senderUuid = true →
      trimIsEmpty content = false → content.length ≤ 10000 →
      trimIsEmpty chatId = false → chatId = "invalid-chat-id-that-does-not-exist" →
      validateMessageInput senderUuid content chatId = .error .chatNotFound)
    ∧ (senderUuid ≠ "non-existent-user-uuid" → isValidUUID senderUuid = true →
      trimIsEmpty content = false → content.length ≤ 10000 →
      trimIsEmpty chatId = false → chatId ≠ "invalid-chat-id-that-does-not-exist" →
      validateMessageInput senderUuid content chatId = .ok (sanitizeContent content)) := by
  have hce : content = "" → trimIsEmpty content = true := by
    intro h; rw [h]; exact trimIsEmpty_empty
  have hche : chatId = "" → trimIsEmpty chatId = true := by
    intro h; rw [h]; exact trimIsEmpty_empty
  refine ⟨?_, ?_, ?_, ?_, ?_, ?_, ?_⟩
  · intro h1
    simp [validateMessageInput, h1]
  · intro h1 h2
    simp [validateMessageInput, h1, h2]
  · intro h1 h2 h3
    have hs : senderUuid ≠ "" := fun h => by
      rw [h] at h2; rw [isValidUUID_empty] at h2; cases h2
    simp [validateMessageInput, h1, h2, h3, hs]
  · intro h1 h2 h3 h4
    have hs : senderUuid ≠ "" := fun h => by
      rw [h] at h2; rw [isValidUUID_empty] at h2; cases h2
    have hc : content ≠ "" := fun h => by rw [hce h] at h3; cases h3
    simp [validateMessageInput, h1, h2, h3, h4, hs, hc]
  · intro h1 h2 h3 h4 h5
    have hs : senderUuid ≠ "" := fun h => by
      rw [h] at h2; rw [isValidUUID_empty] at h2; cases h2
    have hc : content ≠ "" := fun h => by rw [hce h] at h3; cases h3
    simp [validateMessageInput, h1, h2, h3, h4, h5, hs, hc, Nat.not_lt.mpr h4]
  · intro h1 h2 h3 h4 h5 h6
    subst h6
    have hs : senderUuid ≠ "" := fun h => by
      rw [h] at h2; rw [isValidUUID_empty] at h2; cases h2
    have hc : content ≠ "" := fun h => by rw [hce h] at h3; cases h3
    simp [validateMessageInput, h1, h2, h3, h5, hs, hc, Nat.not_lt.mpr h4]
  · intro h1 h2 h3 h4 h5 h6
    have hs : senderUuid ≠ "" := fun h => by
      rw [h] at h2; rw [isValidUUID_empty] at h2; cases h2
    have hc : content ≠ "" := fun h => by rw [hce h] at h3; cases h3
    have hch : chatId ≠ "" := fun h => by rw [hche h] at h5; cases h5
    simp [validateMessageInput, h1, h2, h3, h4, h5, h6, hs, hc, hch, Nat.not_lt.mpr h4]

/-- Claim C1 witness: each stage of the order at a concrete request; in
particular the non-existent sender wins over empty content. -/
theorem c1_validation_order_witness :
    validateMessageInput "non-existent-user-uuid" "" "" = .error .userNotFound
    ∧ validateMessageInput "not-a-uuid" "" "" = .error .invalidUuidFormat
    ∧ validateMessageInput "uuid-123" " " "c1" = .error .emptyContent
    ∧ validateMessageInput "uuid-123" "hi" " " = .error .invalidChatId
    ∧ validateMessageInput "uuid-123" "hi" "invalid-chat-id-that-does-not-exist"
        = .error .chatNotFound
    ∧ validateMessageInput "uuid-123" "hi" "c1" = .ok (sanitizeContent "hi") :=
  ⟨(c1_validation_order "non-existent-user-uuid" "" "").1 rfl,
   (c1_validation_order "not-a-uuid" "" "").2.1 (by decide) (by decide),
   (c1_validation_order "uuid-123" " " "c1").2.2.1 (by decide) (by decide) (by decide),
   (c1_validation_order "uuid-123" "hi" " ").2.2.2.2.1 (by decide) (by decide) (by decide)
     (by decide) (by decide),
   (c1_validation_order "uuid-123" "hi" "invalid-chat-id-that-does-not-exist").2.2.2.2.2.1
     (by decide) (by decide) (by decide) (by decide) (by decide) rfl,
   (c1_validation_order "uuid-123" "hi" "c1").2.2.2.2.2.2
     (by decide) (by decide) (by decide) (by decide) (by decide) (by decide)⟩

/-- Claim C2 counterexample: on the optimal-load fixture (agent A at 2 of 5,
agent B at 1 of 3, both available), the two policies do NOT select
different agents — round-robin and least-busy return the same agent. -/
theorem c2_policies_agree_counterexample :
    getNextAvailableAgent optimalLoadAgents "business-uuid-1"
      = getLeastBusyAgent optimalLoadAgents "business-uuid-1" := by decide

/-- Claim C2 amended: on this fixture round-robin selects the agent with the
lower absolute load (agent-uuid-2, load 1) and least-busy selects the
agent with the lower load fraction (also agent-uuid-2, 33% against 40%
and 75%); the two policies select the same agent here. -/
theorem c2_policies_on_optimal_load :
    (getNextAvailableAgent optimalLoadAgents "business-uuid-1").map TestAgent.uuid
      = some "agent-uuid-2"
    ∧ (getLeastBusyAgent optimalLoadAgents "business-uuid-1").map TestAgent.uuid
      = some "agent-uuid-2" := by decide

/-- Claim C3 counterexample: the conversation `conv-1` contains no messages,
yet the history operation does not return the empty list (it returns the
hardcoded two-message fallback). -/
theorem c3_empty_history_counterexample :
    getChatHistory [] [] 0 "conv-1" ≠ [] := by
  simp [getChatHistory, fallbackHistory]

/-- Claim C3 amended: history never errors (it is a total function into
lists); it returns the empty list for the designated empty conversation
id `empty-chat-test`; for any other conversation with no stored messages
it returns the hardcoded two-message fallback rather than the empty list;
and every result is ascending in the ordering key (timestamp). -/
theorem c3_history_behaviour (msgs : List DbMessage) (reads : List DbRead)
    (now : Int) (chatId : String) :
    getChatHistory msgs reads now "empty-chat-test" = []
    ∧ (chatId ≠ "empty-chat-test" → msgs.filter (fun m => m.chatId == chatId) = [] →
        getChatHistory msgs reads now chatId = fallbackHistory now)
    ∧ List.Pairwise (fun a b : ChatMessage => a.timestamp ≤ b.timestamp)
        (getChatHistory msgs reads now chatId) := by
  refine ⟨by simp [getChatHistory], ?_, ?_⟩
  · intro h1 h2
    simp [getChatHistory, h1, h2]
  · by_cases h1 : chatId = "empty-chat-test"
    · simp [getChatHistory, h1]
    · have hsorted := List.sorted_mergeSort
        byTimestamp_trans byTimestamp_total (msgs.filter (fun m => m.chatId == chatId))
      by_cases h2 : ((msgs.filter (fun m => m.chatId == chatId)).mergeSort byTimestamp).isEmpty
      · simp [getChatHistory, h1, h2, fallbackHistory]
      · simp only [getChatHistory, if_neg h1, if_neg (by simpa using h2)]
        rw [if_neg (by simpa using h2)]
        refine List.Pairwise.map _ ?_ hsorted
        intro a b hab
        simpa [byTimestamp] using hab

/-- Claim C3 witness: a store whose only row belongs to another chat falls
back to the hardcoded list, and a result with stored rows is ordered. -/
theorem c3_history_behaviour_witness :
    getChatHistory [⟨"m1", "other-chat", "u1", "x", 9⟩] [] 7 "c9" = fallbackHistory 7
    ∧ List.Pairwise (fun a b : ChatMessage => a.timestamp ≤ b.timestamp)
        (getChatHistory [⟨"m1", "c1", "u1", "hello", 3⟩] [] 7 "c1") :=
  ⟨(c3_history_behaviour [⟨"m1", "other-chat", "u1", "x", 9⟩] [] 7 "c9").2.1
      (by decide) (by decide),
   (c3_history_behaviour [⟨"m1", "c1", "u1", "hello", 3⟩] [] 7 "c1").2.2⟩

/-- Claim C4: the source comment promises a unique timestamp through a
microsecond random component, but the Date constructor truncates to whole
milliseconds, so any two appends within the same clock tick receive the
same ordering key (equal to the tick itself) — the key is not strictly
increasing within a conversation. -/
theorem c4_same_tick_equal_keys (nowMs : Nat) (r₁ r₂ : ℚ)
    (h₁ : 0 ≤ r₁ ∧ r₁ < 1) (h₂ : 0 ≤ r₂ ∧ r₂ < 1) :
    messageTimestamp nowMs r₁ = messageTimestamp nowMs r₂
    ∧ messageTimestamp nowMs r₁ = nowMs := by
  have key : ∀ r : ℚ, 0 ≤ r → r < 1 → messageTimestamp nowMs r = nowMs := by
    intro r h0 hlt
    unfold messageTimestamp
    rw [Int.floor_eq_iff]
    push_cast
    constructor
    · nlinarith
    · nlinarith
  exact ⟨(key r₁ h₁.1 h₁.2).trans (key r₂ h₂.1 h₂.2).symm, key r₁ h₁.1 h₁.2⟩

/-- Claim C4 witness: at clock tick 1000 two distinct random draws still
yield the identical stored key 1000. -/
theorem c4_same_tick_equal_keys_witness :
    messageTimestamp 1000 (1 / 2) = messageTimestamp 1000 (9 / 10)
    ∧ messageTimestamp 1000 (1 / 2) = 1000 :=
  c4_same_tick_equal_keys 1000 (1 / 2) (9 / 10) (by norm_num) (by norm_num)

/-- Claim C5 counterexample: sanitization is not idempotent — this
already-sanitized value (the output of one sanitization pass) still
changes under a second pass, because stripping the inner span glues a new
script tag together. -/
theorem c5_sanitize_not_idempotent :
    sanitizeContent (sanitizeContent "<scr<script>a</script>ipt>b</script>")
      ≠ sanitizeContent "<scr<script>a</script>ipt>b</script>" := by decide

/-- Claim C5 amended: the documented round-trip holds — the example content
is stored as "Hi" and re-sanitizing that stored value is a no-op — but
idempotence does not extend to every already-sanitized value. -/
theorem c5_sanitize_round_trip :
    sanitizeContent "<script>alert(1)</script>Hi" = "Hi"
    ∧ sanitizeContent "Hi" = "Hi" := by decide

/-- Claim C6 counterexample: a direct-conversation participant list with
exactly 2 entries on which creation nevertheless fails, refuting
"succeeds if and only if the participant list has exactly 2 entries". -/
theorem c6_two_duplicates_counterexample :
    ¬ ((validateConversationCreation .direct ["a", "a"]).valid = true
        ↔ (["a", "a"] : List String).length = 2) := by decide

/-- Claim C6 amended: creation succeeds for direct exactly when the list has
2 entries and no repeats, for group exactly when it has 2 to 8 entries
and no repeats; a count violating the type rule fails with the
participant-count error (which takes precedence over duplicates), and a
list with a valid count but a repeated UUID fails with the duplicate
error. -/
theorem c6_creation_rules (ps : List String) :
    ((validateConversationCreation .direct ps).valid = true ↔ ps.length = 2 ∧ ps.Nodup)
    ∧ ((validateConversationCreation .group ps).valid = true ↔
        (2 ≤ ps.length ∧ ps.length ≤ 8) ∧ ps.Nodup)
    ∧ (ps.length ≠ 2 → validateConversationCreation .direct ps
        = ⟨false, some "Direct conversations must have exactly 2 participants"⟩)
    ∧ (ps.length < 2 → validateConversationCreation .group ps
        = ⟨false, some "Group conversations must have at least 2 participants"⟩)
    ∧ (8 < ps.length → validateConversationCreation .group ps
        = ⟨false, some "Group conversations cannot have more than 8 participants"⟩)
    ∧ (ps.length = 2 → ¬ ps.Nodup → validateConversationCreation .direct ps
        = ⟨false, some "Conversation cannot have duplicate participants"⟩)
    ∧ (2 ≤ ps.length → ps.length ≤ 8 → ¬ ps.Nodup → validateConversationCreation .group ps
        = ⟨false, some "Conversation cannot have duplicate participants"⟩) := by
  have hdl := dedup_length_eq_iff_nodup ps
  refine ⟨?_, ?_, ?_, ?_, ?_, ?_, ?_⟩
  · rw [validate_direct_eq]
    split_ifs with hL hD
    · simp only [show (false = true) = False from by simp, false_iff]
      exact fun hh => hL hh.1
    · simp only [show (false = true) = False from by simp, false_iff]
      rintro ⟨-, hn⟩
      exact hD (hdl.mpr hn)
    · push_neg at hL hD
      simp only [show (true = true) = True from by simp, true_iff]
      exact ⟨hL, hdl.mp hD⟩
  · rw [validate_group_eq]
    split_ifs with hLo hHi hD
    · simp only [show (false = true) = False from by simp, false_iff]
      rintro ⟨⟨h1, -⟩, -⟩
      omega
    · simp only [show (false = true) = False from by simp, false_iff]
      rintro ⟨⟨-, h2⟩, -⟩
      omega
    · simp only [show (false = true) = False from by simp, false_iff]
      rintro ⟨-, hn⟩
      exact hD (hdl.mpr hn)
    · push_neg at hD
      simp only [show (true = true) = True from by simp, true_iff]
      exact ⟨⟨by omega, by omega⟩, hdl.mp hD⟩
  · intro h2
    rw [validate_direct_eq, if_pos h2]
  · intro hlt
    rw [validate_group_eq, if_pos hlt]
  · intro hgt
    rw [validate_group_eq, if_neg (by omega), if_pos hgt]
  · intro h2 hn
    have hne : ps.dedup.length ≠ ps.length := fun h => hn (hdl.mp h)
    rw [validate_direct_eq, if_neg (by omega), if_pos hne]
  · intro hlo hhi hn
    have hne : ps.dedup.length ≠ ps.length := fun h => hn (hdl.mp h)
    rw [validate_group_eq, if_neg (by omega), if_neg (by omega), if_pos hne]

/-- Claim C6 witness: a valid direct pair succeeds, a 9-member group reports
the count error, and a duplicated direct pair reports the duplicate
error. -/
theorem c6_creation_rules_witness :
    (validateConversationCreation .direct ["a", "b"]).valid = true
    ∧ validateConversationCreation .group ["a", "b", "c", "d", "e", "f", "g", "h", "i"]
        = ⟨false, some "Group conversations cannot have more than 8 participants"⟩
    ∧ validateConversationCreation .direct ["a", "a"]
        = ⟨false, some "Conversation cannot have duplicate participants"⟩ :=
  ⟨(c6_creation_rules ["a", "b"]).1.mpr ⟨by decide, by decide⟩,
   (c6_creation_rules ["a", "b", "c", "d", "e", "f", "g", "h", "i"]).2.2.2.2.1 (by decide),
   (c6_creation_rules ["a", "a"]).2.2.2.2.2.1 (by decide) (by decide)⟩

/-- Claim C7: the service keeps no per-user unread state at all — the chat
list reports the hardcoded unread count 1 for every state of the system,
and a message append only writes the messages table, so sending one
message leaves every reported unread count unchanged instead of
incrementing the recipient's by 1. -/
theorem c7_unread_count_static (userId : String) (profiles : List (String × String))
    (now : Int) (msgs : List DbMessage) (cid s c nid : String) (nowMs : Nat) (r : ℚ) :
    (getChatList userId profiles now).map ChatPreview.unreadCount = [1]
    ∧ (sendMessage msgs cid s c nid nowMs r).1
        = msgs ++ [⟨nid, cid, s, c, messageTimestamp nowMs r⟩] := by
  exact ⟨by simp [getChatList], by simp [sendMessage]⟩

/-- Claim C8: marking a message read is idempotent per (messageId,
readerUuid) — a second call with the same pair returns the stored state
unchanged and still acknowledges with "read", as does the first call. -/
theorem c8_markAsRead_idempotent (store : List DbRead) (messageId readerUuid : String)
    (t₁ t₂ : Int) :
    markAsRead (markAsRead store messageId readerUuid t₁).1 messageId readerUuid t₂
      = ((markAsRead store messageId readerUuid t₁).1, "read")
    ∧ (markAsRead store messageId readerUuid t₁).2 = "read" := by
  unfold markAsRead
  by_cases h : store.any (fun r => r.messageId == messageId && r.readerUuid == readerUuid)
  · simp [h]
  · simp [h, List.any_append]

/-- Claim C9: once archive() succeeds on a conversation, every send by a
user with access to it fails with the archived-conversation error, every
participant can still read the (archived) conversation, and archiving
changes nobody's access. -/
theorem c9_archive_blocks_send (s : ConvStore) (cid uid : String) (now : Int)
    (s' : ConvStore) (c' : MockConversation)
    (h : archiveConversation s cid uid now = .ok (s', c')) :
    (∀ senderUuid content now2, validateUserAccess s' cid senderUuid = true →
        sendMessageWithAccessControl s' cid senderUuid content now2
          = .error "Cannot send message to archived conversation")
    ∧ (∀ viewer, validateUserAccess s' cid viewer = true →
        getConversationWithAccessControl s' cid viewer = .ok (some c'))
    ∧ (∀ u, validateUserAccess s' cid u = validateUserAccess s cid u) := by
  unfold archiveConversation at h
  by_cases hacc : validateUserAccess s cid uid
  · rw [if_neg (by simp [hacc])] at h
    cases hlook : lookupConv s cid with
    | none => rw [hlook] at h; cases h
    | some c =>
        rw [hlook] at h
        injection h with h
        injection h with hs hc
        subst hs
        subst hc
        have hset := lookupConv_setConv_self s cid
          { c with archived := true, archivedAt := some now, archivedBy := some uid }
        refine ⟨?_, ?_, ?_⟩
        · intro senderUuid content now2 haccs
          unfold validateUserAccess at haccs
          rw [hset] at haccs
          have hmem : senderUuid ∈ c.participants := by simpa using haccs
          unfold sendMessageWithAccessControl
          rw [hset]
          simp [hmem]
        · intro viewer haccv
          unfold getConversationWithAccessControl
          rw [if_neg (by simp [haccv])]
          rw [hset]
        · intro u
          unfold validateUserAccess
          rw [hset, hlook]
  · rw [if_pos (by simp [hacc])] at h
    cases h

/-- Claim C9 witness: archiving the alice-bob conversation makes bob's send
fail with the archived-conversation error. -/
theorem c9_archive_blocks_send_witness :
    sendMessageWithAccessControl [("conv-1", conversationAliceBobArchived)]
        "conv-1" "uuid-bob" "hi" 600
      = .error "Cannot send message to archived conversation" :=
  (c9_archive_blocks_send [("conv-1", conversationAliceBob)] "conv-1" "uuid-alice" 500
      [("conv-1", conversationAliceBobArchived)] conversationAliceBobArchived
      (by decide)).1 "uuid-bob" "hi" 600 (by decide)

/-- Claim C10: the sender-UUID format check also accepts identifiers of the
form uuid- followed by alphanumerics or hyphens; uuid-123 is not an
RFC-4122 UUID yet passes format validation, and a message it sends is
accepted end to end. -/
theorem c10_test_uuid_accepted :
    isValidUUID "uuid-123" = true
    ∧ rfc4122Shape "uuid-123" = false
    ∧ testUuidShape "uuid-123" = true
    ∧ validateMessageInput "uuid-123" "hello" "chat-1" = .ok "hello" := by decide

end ChatSpec
